import Mathlib

/-!
# Verification of the doughnuts-order-assistant order-state core

Shallow embedding of the cross-process order-state synchronization core of
`mission2/code/doughnuts_order_assistant`:

* `state_controller/states.py`  — `OrderPhase`, `OrderState`
* `state_controller/machine.py` — `OrderStateManager` (create_order, set_phase,
  mark_completed, mark_canceled, mark_error, get_order)
* `state_controller/events.py`  — `publish_event`, `_send_event_to_socket`
  (serialization side) and `handle_client` (parse/validate side)
* `api/app.py`                  — `get_order_status`, `sync_worker_events`
* `api/schemas.py`              — the `GatewayEvent` pydantic union
* `robot_controller/worker.py`  — `PersistentRobotWorker._execute_order`,
  `PersistentRobotWorker._handle_command`
* `services/orders.py`          — `OrderService.cancel_order`

Modelling conventions:

* Python `dict` registries are insertion-ordered association lists with the
  first-match lookup/replace semantics of a dict whose keys are unique.
* Python `float` is modelled as `ℚ`; every float literal in the relevant code
  (0.0, 0.5, 0.7, 0.9, 1.0) is an exact rational, and `json.dumps`/`json.loads`
  round-trip Python floats exactly, so nothing is lost at this level.
* JSON texts are modelled at the JSON-value level: `json.dumps` on the sender
  and `json.loads` on the receiver are mutually inverse for the values the
  program exchanges, so the wire hop is the identity on `Json` values;
  serialization is `model_dump`, the intended union validation is
  `model_validate`, and the actual (failing) validation call is
  `gatewayEvent_model_validate_call`.
* Fallible code returns `Except`; an uncaught Python exception is an `Except.error`.
* `uuid4()` is modelled as an externally supplied identifier string; its
  freshness (no collision with an existing registry key) is a hypothesis.
-/

/-- JSON values (the image of Python objects under `json.dumps`/`json.loads`).
Numbers are rationals (exact for every float the program serializes). -/
inductive Json where
  | null : Json
  | bool (b : Bool) : Json
  | num (q : ℚ) : Json
  | str (s : String) : Json
  | arr (items : List Json) : Json
  | obj (fields : List (String × Json)) : Json

/-- First-match field lookup in a JSON object (Python `dict` access). -/
def Json.getField : List (String × Json) → String → Option Json
  | [], _ => none
  | (k, v) :: rest, key => if k = key then some v else Json.getField rest key

/-- `Flavor = Literal["chocolate", "strawberry"]` from `api/schemas.py`. -/
inductive Flavor where
  | chocolate : Flavor
  | strawberry : Flavor
deriving DecidableEq, Repr

/-- The string value of a flavor literal. -/
def Flavor.name : Flavor → String
  | .chocolate => "chocolate"
  | .strawberry => "strawberry"

/-- `OrderPhase` from `state_controller/states.py`. -/
inductive OrderPhase where
  | WAITING : OrderPhase
  | PUTTING_DONUT : OrderPhase
  | CLOSING_LID : OrderPhase
  | DONE : OrderPhase
  | CANCELED : OrderPhase
  | ERROR : OrderPhase
deriving DecidableEq, Repr

/-- `OrderPhase.name` — the Python enum member name (`phase.name`). -/
def OrderPhase.name : OrderPhase → String
  | .WAITING => "WAITING"
  | .PUTTING_DONUT => "PUTTING_DONUT"
  | .CLOSING_LID => "CLOSING_LID"
  | .DONE => "DONE"
  | .CANCELED => "CANCELED"
  | .ERROR => "ERROR"

/-- `OrderState` from `state_controller/states.py`.

`table_id` and `user_id` are declared in `states.py` without defaults, but no
code under the repository's snapshot ever supplies them (`machine.py`'s
`create_order` constructs `OrderState` without them — a version skew between
the two files); the spec's data model (§3) lists no such attributes.  They are
kept here for structural fidelity and are observed by no claim. -/
structure OrderState where
  request_id : String
  flavor : Flavor
  table_id : String
  user_id : String
  phase : OrderPhase
  message : String
  progress : ℚ
  error_message : Option String
  metadata : Json

/-- The gateway/worker Registry: the `Dict[str, OrderState]` of
`OrderStateManager._orders`, as an insertion-ordered association list with
unique keys. -/
abbrev Registry := List (String × OrderState)

/-- `self._orders.get(request_id)` — first-match lookup. -/
def lookupOrder : Registry → String → Option OrderState
  | [], _ => none
  | (k, v) :: rest, r => if k = r then some v else lookupOrder rest r

/-- In-place mutation of the state object bound to a key (`state.phase = ...`
after a successful `get`): replaces the value at the key if present, leaves
the registry unchanged otherwise. -/
def updateOrder : Registry → String → (OrderState → OrderState) → Registry
  | [], _, _ => []
  | (k, v) :: rest, r, f =>
      if k = r then (k, f v) :: rest else (k, v) :: updateOrder rest r f

/-- `self._orders[request_id] = state` — dict assignment: replace if the key
exists, append otherwise. -/
def insertOrder : Registry → String → OrderState → Registry
  | [], r, v => [(r, v)]
  | (k, w) :: rest, r, v =>
      if k = r then (k, v) :: rest else (k, w) :: insertOrder rest r v

theorem lookupOrder_updateOrder (l : Registry) (r r2 : String)
    (f : OrderState → OrderState) :
    lookupOrder (updateOrder l r f) r2 =
      if r2 = r then (lookupOrder l r).map f else lookupOrder l r2 := by
  induction l with
  | nil => simp [lookupOrder, updateOrder]
  | cons hd tl ih =>
    obtain ⟨k, v⟩ := hd
    by_cases hk : k = r
    · subst hk
      by_cases hr : r2 = k
      · subst hr
        simp [lookupOrder, updateOrder]
      · simp [lookupOrder, updateOrder, hr, Ne.symm hr]
    · by_cases hr : r2 = k
      · subst hr
        simp [lookupOrder, updateOrder, hk, Ne.symm hk]
      · simp [lookupOrder, updateOrder, hk, hr, Ne.symm hr, ih]

theorem lookupOrder_insertOrder (l : Registry) (r r2 : String) (v : OrderState) :
    lookupOrder (insertOrder l r v) r2 =
      if r2 = r then some v else lookupOrder l r2 := by
  induction l with
  | nil =>
    by_cases hr : r2 = r
    · simp [lookupOrder, insertOrder, hr]
    · simp [lookupOrder, insertOrder, hr, Ne.symm hr]
  | cons hd tl ih =>
    obtain ⟨k, w⟩ := hd
    by_cases hk : k = r
    · subst hk
      by_cases hr : r2 = k
      · subst hr
        simp [lookupOrder, insertOrder]
      · simp [lookupOrder, insertOrder, hr, Ne.symm hr]
    · by_cases hr : r2 = k
      · subst hr
        simp [lookupOrder, insertOrder, hk, Ne.symm hk]
      · simp [lookupOrder, insertOrder, hk, hr, Ne.symm hr, ih]

theorem updateOrder_of_lookup_none (l : Registry) (r : String)
    (f : OrderState → OrderState) (h : lookupOrder l r = none) :
    updateOrder l r f = l := by
  induction l with
  | nil => simp [updateOrder]
  | cons hd tl ih =>
    obtain ⟨k, v⟩ := hd
    by_cases hk : k = r
    · subst hk
      simp [lookupOrder] at h
    · simp [lookupOrder, hk] at h
      simp [updateOrder, hk, ih h]

/-- The `GatewayEvent` tagged union from `api/schemas.py`:
`StatusUpdateEvent | CompletedEvent | ErrorEvent`.
`result` is the JSON object carried by `CompletedEvent.result : dict`;
`request_id` of an error event is `Optional[str]` (default `None`). -/
inductive GatewayEvent where
  | statusUpdate (request_id : String) (stage : String) (progress : ℚ)
      (message : String) : GatewayEvent
  | completed (request_id : String) (result : List (String × Json)) : GatewayEvent
  | error (request_id : Option String) (message : String) : GatewayEvent

/-- State of one `OrderStateManager` (`state_controller/machine.py`) together
with the trace of events it has published.

`published` models, in order, every event the manager hands to
`publish_event`.  Modelled from the spec: `machine.py` calls a
`publish_event(event, skip_socket=...)` variant that is absent from the
snapshot's `events.py` (which also lacks the `subscribe_events` that
`api/app.py` imports — the events module the callers were written against is
missing from the snapshot); per spec §4.2 `publish(event)` appends the event
to the local queue and must never propagate relay failures to the publisher,
so at this level publishing is a total append and the `skip_socket` flag, which
only suppresses the best-effort relay, is invisible. -/
structure MgrState where
  orders : Registry
  published : List GatewayEvent

/-- `OrderStateManager.create_order` (machine.py lines 26-44).  `request_id`
is the externally drawn `uuid4()` string.  The `OrderState` constructor call
in the source omits `table_id`/`user_id` (required by `states.py` — version
skew); modelled from the spec data model (§3), which has no such attributes,
they are set to the empty string here; no claim observes them. -/
def create_order (st : MgrState) (request_id : String) (flavor : Flavor) :
    MgrState :=
  let state : OrderState :=
    { request_id := request_id
      flavor := flavor
      table_id := ""
      user_id := ""
      phase := OrderPhase.WAITING
      message := "注文を受け付けました"
      progress := 0
      error_message := none
      metadata := Json.obj [] }
  { orders := insertOrder st.orders request_id state
    published := st.published ++
      [GatewayEvent.statusUpdate request_id state.phase.name state.progress
        state.message] }

/-- `OrderStateManager.get_order` (machine.py lines 46-47). -/
def get_order (st : MgrState) (request_id : String) : Option OrderState :=
  lookupOrder st.orders request_id

/-- `OrderStateManager.set_phase` (machine.py lines 49-72): overwrite
phase/message/progress if the id is known, and publish the `StatusUpdateEvent`
unconditionally. -/
def set_phase (st : MgrState) (request_id : String) (phase : OrderPhase)
    (message : String) (progress : ℚ) : MgrState :=
  { orders := updateOrder st.orders request_id
      (fun s => { s with phase := phase, message := message, progress := progress })
    published := st.published ++
      [GatewayEvent.statusUpdate request_id phase.name progress message] }

/-- `OrderStateManager.mark_completed` (machine.py lines 74-95). -/
def mark_completed (st : MgrState) (request_id : String) : MgrState :=
  let flavorField : String :=
    match lookupOrder st.orders request_id with
    | some s => s.flavor.name
    | none => "unknown"
  { orders := updateOrder st.orders request_id
      (fun s => { s with phase := OrderPhase.DONE, progress := 1,
                         message := "ドーナッツを箱に詰め終わりました" })
    published := st.published ++
      [GatewayEvent.completed request_id
        [("delivered", Json.bool true), ("flavor", Json.str flavorField)]] }

/-- `OrderStateManager.mark_canceled` (machine.py lines 97-110).  Note the
state message and the published event message differ in the source, and the
event reuses the `ErrorEvent` shape. -/
def mark_canceled (st : MgrState) (request_id : String) : MgrState :=
  { orders := updateOrder st.orders request_id
      (fun s => { s with phase := OrderPhase.CANCELED,
                         message := "注文をキャンセルしました" })
    published := st.published ++
      [GatewayEvent.error (some request_id) "注文がキャンセルされました"] }

/-- `OrderStateManager.mark_error` (machine.py lines 112-124): stores the text
in the separate `error_message` field (not `message`). -/
def mark_error (st : MgrState) (request_id : String) (message : String) :
    MgrState :=
  { orders := updateOrder st.orders request_id
      (fun s => { s with phase := OrderPhase.ERROR, error_message := some message })
    published := st.published ++
      [GatewayEvent.error (some request_id) message] }

/-- The `OrderStatus` response model of `GET /orders/{id}/status`
(`api/schemas.py`). -/
structure OrderStatus where
  request_id : String
  stage : String
  progress : ℚ
  message : String
  done : Bool

/-- An HTTP-level failure: status code and detail. -/
structure HttpError where
  status : Nat
  detail : String

/-- `get_order_status` (api/app.py lines 169-190): 404 when the id is not in
the registry; otherwise an `OrderStatus` whose `done` is the membership test
`state.phase in (DONE, ERROR, CANCELED)`.  Constructing the pydantic
`OrderStatus` re-validates `progress` against `Field(ge=0.0, le=1.0)`; a value
outside `[0, 1]` raises a response-validation error (HTTP 500), modelled by
the second error branch. -/
def get_order_status (st : MgrState) (request_id : String) :
    Except HttpError OrderStatus :=
  match lookupOrder st.orders request_id with
  | none => Except.error { status := 404, detail := "order not found" }
  | some s =>
      let done : Bool :=
        s.phase == OrderPhase.DONE || s.phase == OrderPhase.ERROR ||
          s.phase == OrderPhase.CANCELED
      if 0 ≤ s.progress ∧ s.progress ≤ 1 then
        Except.ok
          { request_id := s.request_id
            stage := s.phase.name
            progress := s.progress
            message := s.message
            done := done }
      else Except.error { status := 500, detail := "response validation error" }

/-- The observable `done` flag of a status query, `none` when the query does
not return an `OrderStatus`. -/
def statusDone (st : MgrState) (request_id : String) : Option Bool :=
  match get_order_status st request_id with
  | Except.ok o => some o.done
  | Except.error _ => none

/-- The observable `message` field of a status query. -/
def statusMessage (st : MgrState) (request_id : String) : Option String :=
  match get_order_status st request_id with
  | Except.ok o => some o.message
  | Except.error _ => none

/-- The `phase_map` dict of `sync_worker_events` (api/app.py lines 68-76):
unknown stages fall back to `WAITING` via `.get(..., OrderPhase.WAITING)`. -/
def phase_map (stage : String) : OrderPhase :=
  if stage = "WAITING" then OrderPhase.WAITING
  else if stage = "PUTTING_DONUT" then OrderPhase.PUTTING_DONUT
  else if stage = "CLOSING_LID" then OrderPhase.CLOSING_LID
  else if stage = "DONE" then OrderPhase.DONE
  else if stage = "CANCELED" then OrderPhase.CANCELED
  else if stage = "ERROR" then OrderPhase.ERROR
  else OrderPhase.WAITING

/-- `sync_worker_events` (api/app.py lines 61-95): applies a relayed worker
event to the gateway's `OrderStateManager`.  An `ErrorEvent` without a
request id is ignored (the `and event.request_id` guard). -/
def sync_worker_events (st : MgrState) (e : GatewayEvent) : MgrState :=
  match e with
  | GatewayEvent.statusUpdate request_id stage progress message =>
      set_phase st request_id (phase_map stage) message progress
  | GatewayEvent.completed request_id _ => mark_completed st request_id
  | GatewayEvent.error (some request_id) message =>
      mark_error st request_id message
  | GatewayEvent.error none _ => st

/-- `event.model_dump()` as passed to `json.dumps` by `_send_event_to_socket`
(events.py lines 43-64): the JSON object for each variant, with the pydantic
field order of `api/schemas.py` and the `EventType` string values. -/
def model_dump : GatewayEvent → Json
  | GatewayEvent.statusUpdate request_id stage progress message =>
      Json.obj
        [("type", Json.str "status_update"),
         ("request_id", Json.str request_id),
         ("stage", Json.str stage),
         ("progress", Json.num progress),
         ("message", Json.str message)]
  | GatewayEvent.completed request_id result =>
      Json.obj
        [("type", Json.str "completed"),
         ("request_id", Json.str request_id),
         ("result", Json.obj result)]
  | GatewayEvent.error request_id message =>
      Json.obj
        [("type", Json.str "error"),
         ("request_id",
           match request_id with
           | some r => Json.str r
           | none => Json.null),
         ("message", Json.str message)]

/-- The INTENDED union validation of the dict produced by `json.loads` —
what each member model validates, resolved by the `type` literal tag
(equivalently `pydantic.TypeAdapter(GatewayEvent).validate_python`): the
remaining fields are required with their declared types and the
`Field(ge=0.0, le=1.0)` bound on `progress` is re-checked; `none` is a
pydantic `ValidationError`.

This is NOT what the call at events.py line 109 computes: `GatewayEvent`
(schemas.py line 63) is a plain PEP-604 `types.UnionType`, which has no
`model_validate` attribute, so the actual call raises `AttributeError` on
every line — see `gatewayEvent_model_validate_call` for the faithful model of
that call.  This definition states the validation the code and the spec
intend, against which the relay round trip is judged. -/
def model_validate (j : Json) : Option GatewayEvent :=
  match j with
  | Json.obj fields =>
      match Json.getField fields "type" with
      | some (Json.str "status_update") =>
          match Json.getField fields "request_id", Json.getField fields "stage",
              Json.getField fields "progress", Json.getField fields "message" with
          | some (Json.str request_id), some (Json.str stage),
              some (Json.num progress), some (Json.str message) =>
              if 0 ≤ progress ∧ progress ≤ 1 then
                some (GatewayEvent.statusUpdate request_id stage progress message)
              else none
          | _, _, _, _ => none
      | some (Json.str "completed") =>
          match Json.getField fields "request_id", Json.getField fields "result" with
          | some (Json.str request_id), some (Json.obj result) =>
              some (GatewayEvent.completed request_id result)
          | _, _ => none
      | some (Json.str "error") =>
          match Json.getField fields "message" with
          | some (Json.str message) =>
              match Json.getField fields "request_id" with
              | some (Json.str r) => some (GatewayEvent.error (some r) message)
              | some Json.null => some (GatewayEvent.error none message)
              | none => some (GatewayEvent.error none message)
              | some _ => none
          | _ => none
      | _ => none
  | _ => none

/-- Events that the pydantic models of `api/schemas.py` can hold: constructing
a `StatusUpdateEvent` already enforces `Field(ge=0.0, le=1.0)` on `progress`,
so every live event satisfies this. -/
def eventWellFormed : GatewayEvent → Prop
  | GatewayEvent.statusUpdate _ _ progress _ => 0 ≤ progress ∧ progress ≤ 1
  | GatewayEvent.completed _ _ => True
  | GatewayEvent.error _ _ => True

/-- `publish_event` from the snapshot's `events.py` (lines 24-41): enqueue the
event on the local queue, then attempt the best-effort socket relay inside a
`try`/`except` that logs and swallows every failure.  `relayOutcome` is the
oracle for what `_send_event_to_socket` does on this call (`.error` = the send
raised).  The result is the whole call's outcome: `.error` would mean an
exception escaping `publish_event` to its caller. -/
def publish_event (relayOutcome : Except String Unit)
    (queue : List GatewayEvent) (e : GatewayEvent) :
    Except String (List GatewayEvent) :=
  let queue2 := queue ++ [e]
  match relayOutcome with
  | Except.ok _ => Except.ok queue2
  | Except.error _ => Except.ok queue2

/-- The outcome of `json.loads(line.decode())` followed by the validation
step on one received line, before the surrounding `try`/`except` of
`handle_client` (events.py lines 107-118).  A line that is not JSON-parseable
is `parsed = none`; a parseable line carries its `Json` value.  The validation
step is modelled by the intended validator `model_validate`; the actual call
raises `AttributeError` instead (see `parse_and_validate_call`), which lands
in the same `.error` outcome, so the containment proved below covers the real
behavior as well. -/
def parse_and_validate (parsed : Option Json) : Except String GatewayEvent :=
  match parsed with
  | none => Except.error "json decode error"
  | some j =>
      match model_validate j with
      | none => Except.error "validation error"
      | some e => Except.ok e

/-- One iteration of `handle_client`'s line loop (events.py lines 104-118):
parse and validate the line inside `try`, push the event on success, and on any
exception log and drop the line, leaving the queue unchanged.  An `.error`
result would be an exception escaping the receive loop. -/
def handle_client_line (queue : List GatewayEvent) (parsed : Option Json) :
    Except String (List GatewayEvent) :=
  match parse_and_validate parsed with
  | Except.ok e => Except.ok (queue ++ [e])
  | Except.error _ => Except.ok queue

/-- The ACTUAL call `GatewayEvent.model_validate(event_dict)` at events.py
line 109: `GatewayEvent` (schemas.py line 63) is the plain PEP-604 union
`StatusUpdateEvent | CompletedEvent | ErrorEvent`, a `types.UnionType` with
no `model_validate` attribute, so the attribute access raises
`AttributeError` before any validation happens, for every input dict. -/
def gatewayEvent_model_validate_call (_j : Json) : Except String GatewayEvent :=
  Except.error "AttributeError: types.UnionType object has no attribute model_validate"

/-- `parse_and_validate` with the actual (failing) validation call of
events.py line 109 in place of the intended validator. -/
def parse_and_validate_call (parsed : Option Json) : Except String GatewayEvent :=
  match parsed with
  | none => Except.error "json decode error"
  | some j => gatewayEvent_model_validate_call j

/-- One iteration of `handle_client`'s line loop as the code actually runs:
the `AttributeError` raised by the validation call is caught by the inner
`except Exception` (events.py lines 114-118), so every received line — well
formed or not — is logged and dropped, and the queue never grows. -/
def handle_client_line_call (queue : List GatewayEvent) (parsed : Option Json) :
    Except String (List GatewayEvent) :=
  match parse_and_validate_call parsed with
  | Except.ok e => Except.ok (queue ++ [e])
  | Except.error _ => Except.ok queue

/-- `WorkerCommandType` from `robot_controller/worker.py`. -/
inductive WorkerCommandType where
  | START_ORDER : WorkerCommandType
  | CANCEL_ORDER : WorkerCommandType
  | SHUTDOWN : WorkerCommandType
deriving DecidableEq, Repr

/-- `WorkerCommand` dataclass from `robot_controller/worker.py`. -/
structure WorkerCommand where
  type : WorkerCommandType
  request_id : Option String := none
  flavor : Option String := none
deriving DecidableEq, Repr

/-- The one-shot JSON response of the worker's control channel,
`{"status": ..., "message": ...}`. -/
structure WorkerResponse where
  status : String
  message : String
deriving DecidableEq, Repr

/-- The coordination state of one `PersistentRobotWorker`
(`robot_controller/worker.py`): its own `OrderStateManager`, the process-wide
`_shutdown_event` flag, and the current-order pointer
(`_current_request_id`/`_current_flavor`).  The model/robot handles and
threads are opaque execution-engine state, out of scope per spec §1. -/
structure WorkerState where
  mgr : MgrState
  shutdown_event : Bool
  current_request_id : Option String
  current_flavor : Option String

/-- `PersistentRobotWorker._handle_command` (worker.py lines 515-536).
`START_ORDER` only schedules `_execute_order` as an independent task
(`asyncio.create_task`), so the coordination state returned here is unchanged;
the scheduled execution is modelled separately by `execute_order`. -/
def handle_command (w : WorkerState) (cmd : WorkerCommand) :
    WorkerState × WorkerResponse :=
  match cmd.type with
  | WorkerCommandType.START_ORDER =>
      match cmd.request_id, cmd.flavor with
      | some _, some _ =>
          (w, { status := "ok", message := "Order started" })
      | _, _ =>
          (w, { status := "error", message := "Missing request_id or flavor" })
  | WorkerCommandType.CANCEL_ORDER =>
      match cmd.request_id with
      | none => (w, { status := "error", message := "Missing request_id" })
      | some request_id =>
          if w.current_request_id = some request_id then
            ({ w with shutdown_event := true
                      mgr := mark_canceled w.mgr request_id },
             { status := "ok", message := "Order canceled" })
          else
            (w, { status := "ok", message := "Order canceled" })
  | WorkerCommandType.SHUTDOWN =>
      ({ w with shutdown_event := true },
       { status := "ok", message := "Shutdown requested" })

/-- `OrderService.cancel_order` (services/orders.py lines 63-75), with the
control-channel hop collapsed to a direct call on the worker: `not-found`
when the gateway registry does not know the id, otherwise send `CancelOrder`
and report `status == "ok"`.  `transportOk = false` models
`send_command_to_worker_async` failing (its `except` returns a
`{"status": "error"}` dict, so the service reports `false`). -/
def cancel_order (gw : MgrState) (w : WorkerState) (transportOk : Bool)
    (request_id : String) : Bool × WorkerState :=
  match lookupOrder gw.orders request_id with
  | none => (false, w)
  | some _ =>
      if transportOk then
        let r := handle_command w
          { type := WorkerCommandType.CANCEL_ORDER, request_id := some request_id }
        ((r.2.status == "ok"), r.1)
      else (false, w)

/-- Oracle for one run of `_execute_order`'s opaque collaborators: the two
`run_episode` executor calls (an `.error` is the exception re-raised when the
episode task is awaited), the value of `r_detected` after each
race-and-await block, the result of the follow-up `_wait_for_r_key_async`
call (that function catches its own exceptions and returns a `Bool`), and the
`_shutdown_event` reading at each phase's gate check. -/
structure ExecEnv where
  episode1 : Except String Unit
  rDetected1 : Bool
  rWait1 : Bool
  shutdown1 : Bool
  episode2 : Except String Unit
  rDetected2 : Bool
  rWait2 : Bool
  shutdown2 : Bool

/-- Apply an `OrderStateManager` operation to the worker's manager. -/
def onMgr (f : MgrState → MgrState) (w : WorkerState) : WorkerState :=
  { w with mgr := f w.mgr }

/-- The `try` body of `PersistentRobotWorker._execute_order`
(worker.py lines 285-504), as a sequential program over the oracle: phase 1
notification, the phase-1 episode/R-key race, the mandatory confirmation gate
(early `return` into `mark_error` when the R key is not detected or shutdown
is requested), the 0.7 progress notification and settle delay, the same
pattern for phase 2, and finally `mark_completed`.  The second component is
`some msg` when the body raises an exception with text `msg`. -/
def execute_order_body (env : ExecEnv) (w : WorkerState)
    (request_id : String) (flavor : String) : WorkerState × Option String :=
  let w1 := onMgr (fun m => set_phase m request_id OrderPhase.PUTTING_DONUT
    ("ドーナツの箱詰めを開始しました (" ++ flavor ++ ")") (1/2)) w
  match env.episode1 with
  | Except.error e => (w1, some e)
  | Except.ok _ =>
    let rDetected1 := env.rDetected1 || (!env.rDetected1 && env.rWait1)
    if !rDetected1 || env.shutdown1 then
      (onMgr (fun m => mark_error m request_id
        "Phase 1 completed but R key not detected") w1, none)
    else
      let w2 := onMgr (fun m => set_phase m request_id OrderPhase.PUTTING_DONUT
        "Phase 1完了: ドーナツを箱に入れました。Phase 2の準備中..." (7/10)) w1
      let w3 := onMgr (fun m => set_phase m request_id OrderPhase.CLOSING_LID
        "Executing policy to close the box..." (9/10)) w2
      match env.episode2 with
      | Except.error e => (w3, some e)
      | Except.ok _ =>
        let rDetected2 := env.rDetected2 || (!env.rDetected2 && env.rWait2)
        if !rDetected2 || env.shutdown2 then
          (onMgr (fun m => mark_error m request_id
            "Phase 2 completed but R key not detected") w3, none)
        else
          (onMgr (fun m => mark_completed m request_id) w3, none)

/-- `PersistentRobotWorker._execute_order` (worker.py lines 280-513): set the
current-order pointer, run the body, convert any exception into
`mark_error(request_id, str(e))` in the `except` clause, and clear the
current-order pointer in the `finally` clause on every exit path. -/
def execute_order (env : ExecEnv) (w : WorkerState)
    (request_id : String) (flavor : String) : WorkerState :=
  let w0 :=
    { w with current_request_id := some request_id
             current_flavor := some flavor }
  let r := execute_order_body env w0 request_id flavor
  let w2 :=
    match r.2 with
    | some e => onMgr (fun m => mark_error m request_id e) r.1
    | none => r.1
  { w2 with current_request_id := none, current_flavor := none }

/-- Claim C2: for every order id present in the gateway's Registry, the status
query returns `{request_id, stage, progress, message, done}` built from the
stored state, with `done = true` iff the phase is DONE, ERROR or CANCELED
(the `progress` bounds are the pydantic response-model constraint, satisfied
by construction for every live state); for any id not in the Registry it
signals not-found (HTTP 404). -/
theorem get_order_status_spec (st : MgrState) (rid : String) :
    (lookupOrder st.orders rid = none →
      get_order_status st rid =
        Except.error { status := 404, detail := "order not found" }) ∧
    (∀ s, lookupOrder st.orders rid = some s →
      0 ≤ s.progress → s.progress ≤ 1 →
      ∃ o, get_order_status st rid = Except.ok o ∧
        o.request_id = s.request_id ∧ o.stage = s.phase.name ∧
        o.progress = s.progress ∧ o.message = s.message ∧
        (o.done = true ↔ (s.phase = OrderPhase.DONE ∨ s.phase = OrderPhase.ERROR ∨
          s.phase = OrderPhase.CANCELED))) := by
  constructor
  · intro h
    simp [get_order_status, h]
  · intro s hs h0 h1
    refine ⟨{ request_id := s.request_id, stage := s.phase.name,
              progress := s.progress, message := s.message,
              done := s.phase == OrderPhase.DONE || s.phase == OrderPhase.ERROR ||
                s.phase == OrderPhase.CANCELED },
            ?_, rfl, rfl, rfl, rfl, ?_⟩
    · simp [get_order_status, hs, if_pos (And.intro h0 h1)]
    · cases s.phase <;> simp

def c2State : OrderState :=
  { request_id := "r1", flavor := Flavor.chocolate, table_id := "", user_id := "",
    phase := OrderPhase.DONE, message := "done", progress := 1,
    error_message := none, metadata := Json.obj [] }

def c2St : MgrState := { orders := [("r1", c2State)], published := [] }

/-- Claim C2 witness: both branches of `get_order_status_spec` at a concrete
registry holding one DONE order. -/
theorem get_order_status_spec_witness :
    get_order_status c2St "missing" =
      Except.error { status := 404, detail := "order not found" } ∧
    (∃ o, get_order_status c2St "r1" = Except.ok o ∧
      o.request_id = c2State.request_id ∧ o.stage = c2State.phase.name ∧
      o.progress = c2State.progress ∧ o.message = c2State.message ∧
      (o.done = true ↔ (c2State.phase = OrderPhase.DONE ∨
        c2State.phase = OrderPhase.ERROR ∨ c2State.phase = OrderPhase.CANCELED))) :=
  ⟨(get_order_status_spec c2St "missing").1 rfl,
   (get_order_status_spec c2St "r1").2 c2State rfl (by norm_num [c2State])
     (by norm_num [c2State])⟩

/-- Claim C4: `create_order` with a fresh id stores a new `OrderState` whose
phase is WAITING, progress 0.0, message the fixed acceptance message, and
flavor the requested one, leaves every other entry unchanged, and publishes a
`StatusUpdateEvent` carrying that id, the stage name, the progress and the
message. -/
theorem create_order_spec (st : MgrState) (rid : String) (flavor : Flavor)
    (_hfresh : lookupOrder st.orders rid = none) :
    lookupOrder (create_order st rid flavor).orders rid = some
      { request_id := rid, flavor := flavor, table_id := "", user_id := "",
        phase := OrderPhase.WAITING, message := "注文を受け付けました",
        progress := 0, error_message := none, metadata := Json.obj [] } ∧
    (∀ r2, r2 ≠ rid →
      lookupOrder (create_order st rid flavor).orders r2 =
        lookupOrder st.orders r2) ∧
    (create_order st rid flavor).published = st.published ++
      [GatewayEvent.statusUpdate rid "WAITING" 0 "注文を受け付けました"] := by
  refine ⟨?_, ?_, rfl⟩
  · simp [create_order, lookupOrder_insertOrder]
  · intro r2 h2
    simp [create_order, lookupOrder_insertOrder, h2]

def c4St : MgrState := { orders := [], published := [] }

/-- Claim C4 witness: creating an order in an empty registry. -/
theorem create_order_spec_witness :
    lookupOrder (create_order c4St "r1" Flavor.strawberry).orders "r1" = some
      { request_id := "r1", flavor := Flavor.strawberry, table_id := "",
        user_id := "", phase := OrderPhase.WAITING,
        message := "注文を受け付けました", progress := 0,
        error_message := none, metadata := Json.obj [] } ∧
    (∀ r2, r2 ≠ "r1" →
      lookupOrder (create_order c4St "r1" Flavor.strawberry).orders r2 =
        lookupOrder c4St.orders r2) ∧
    (create_order c4St "r1" Flavor.strawberry).published = c4St.published ++
      [GatewayEvent.statusUpdate "r1" "WAITING" 0 "注文を受け付けました"] :=
  create_order_spec c4St "r1" Flavor.strawberry rfl

/-- Claim C5: `mark_completed` on a locally known id sets phase DONE,
progress 1.0 and the fixed completion message, and publishes a
`CompletedEvent` whose result carries `delivered = true` and the order's
flavor; on an unknown id it leaves the registry unchanged and publishes the
event with the sentinel flavor `"unknown"`. -/
theorem mark_completed_spec (st : MgrState) (rid : String) :
    (∀ s, lookupOrder st.orders rid = some s →
      lookupOrder (mark_completed st rid).orders rid =
        some { s with phase := OrderPhase.DONE, progress := 1,
                      message := "ドーナッツを箱に詰め終わりました" } ∧
      (∀ r2, r2 ≠ rid →
        lookupOrder (mark_completed st rid).orders r2 = lookupOrder st.orders r2) ∧
      (mark_completed st rid).published = st.published ++
        [GatewayEvent.completed rid
          [("delivered", Json.bool true), ("flavor", Json.str s.flavor.name)]]) ∧
    (lookupOrder st.orders rid = none →
      (mark_completed st rid).orders = st.orders ∧
      (mark_completed st rid).published = st.published ++
        [GatewayEvent.completed rid
          [("delivered", Json.bool true), ("flavor", Json.str "unknown")]]) := by
  constructor
  · intro s hs
    refine ⟨?_, ?_, ?_⟩
    · simp [mark_completed, lookupOrder_updateOrder, hs]
    · intro r2 h2
      simp [mark_completed, lookupOrder_updateOrder, h2]
    · simp [mark_completed, hs]
  · intro h
    refine ⟨?_, ?_⟩
    · simp [mark_completed, updateOrder_of_lookup_none st.orders rid _ h]
    · simp [mark_completed, h]

def c5State : OrderState :=
  { request_id := "r1", flavor := Flavor.chocolate, table_id := "", user_id := "",
    phase := OrderPhase.CLOSING_LID, message := "closing", progress := 9/10,
    error_message := none, metadata := Json.obj [] }

def c5St : MgrState := { orders := [("r1", c5State)], published := [] }

/-- Claim C5 witness: completing a known order and an unknown one. -/
theorem mark_completed_spec_witness :
    (lookupOrder (mark_completed c5St "r1").orders "r1" =
      some { c5State with phase := OrderPhase.DONE, progress := 1,
                          message := "ドーナッツを箱に詰め終わりました" } ∧
      (∀ r2, r2 ≠ "r1" →
        lookupOrder (mark_completed c5St "r1").orders r2 =
          lookupOrder c5St.orders r2) ∧
      (mark_completed c5St "r1").published = c5St.published ++
        [GatewayEvent.completed "r1"
          [("delivered", Json.bool true), ("flavor", Json.str "chocolate")]]) ∧
    ((mark_completed c5St "ghost").orders = c5St.orders ∧
      (mark_completed c5St "ghost").published = c5St.published ++
        [GatewayEvent.completed "ghost"
          [("delivered", Json.bool true), ("flavor", Json.str "unknown")]]) :=
  ⟨(mark_completed_spec c5St "r1").1 c5State rfl,
   (mark_completed_spec c5St "ghost").2 rfl⟩

/-- Claim C6: every mutating lifecycle operation on an id absent from the
local Registry leaves the registry map completely unchanged while still
publishing the corresponding event. -/
theorem missing_id_mutation_noop (st : MgrState) (rid : String)
    (h : lookupOrder st.orders rid = none) :
    (∀ ph m p, (set_phase st rid ph m p).orders = st.orders ∧
      (set_phase st rid ph m p).published = st.published ++
        [GatewayEvent.statusUpdate rid ph.name p m]) ∧
    ((mark_completed st rid).orders = st.orders ∧
      (mark_completed st rid).published = st.published ++
        [GatewayEvent.completed rid
          [("delivered", Json.bool true), ("flavor", Json.str "unknown")]]) ∧
    ((mark_canceled st rid).orders = st.orders ∧
      (mark_canceled st rid).published = st.published ++
        [GatewayEvent.error (some rid) "注文がキャンセルされました"]) ∧
    (∀ m, (mark_error st rid m).orders = st.orders ∧
      (mark_error st rid m).published = st.published ++
        [GatewayEvent.error (some rid) m]) := by
  refine ⟨?_, ⟨?_, ?_⟩, ⟨?_, rfl⟩, ?_⟩
  · intro ph m p
    exact ⟨by simp [set_phase, updateOrder_of_lookup_none st.orders rid _ h], rfl⟩
  · simp [mark_completed, updateOrder_of_lookup_none st.orders rid _ h]
  · simp [mark_completed, h]
  · simp [mark_canceled, updateOrder_of_lookup_none st.orders rid _ h]
  · intro m
    exact ⟨by simp [mark_error, updateOrder_of_lookup_none st.orders rid _ h], rfl⟩

def c6St : MgrState :=
  { orders := [("other",
      { request_id := "other", flavor := Flavor.chocolate, table_id := "",
        user_id := "", phase := OrderPhase.WAITING,
        message := "注文を受け付けました", progress := 0,
        error_message := none, metadata := Json.obj [] })]
    published := [] }

/-- Claim C6 witness: mutations on the unknown id `"ghost"` in a registry
holding only `"other"`. -/
theorem missing_id_mutation_noop_witness :
    ((set_phase c6St "ghost" OrderPhase.DONE "m" 1).orders = c6St.orders ∧
      (set_phase c6St "ghost" OrderPhase.DONE "m" 1).published =
        c6St.published ++ [GatewayEvent.statusUpdate "ghost" "DONE" 1 "m"]) ∧
    ((mark_canceled c6St "ghost").orders = c6St.orders ∧
      (mark_canceled c6St "ghost").published = c6St.published ++
        [GatewayEvent.error (some "ghost") "注文がキャンセルされました"]) :=
  ⟨(missing_id_mutation_noop c6St "ghost" rfl).1 OrderPhase.DONE "m" 1,
   (missing_id_mutation_noop c6St "ghost" rfl).2.2.1⟩

def c9State : OrderState :=
  { request_id := "r1", flavor := Flavor.chocolate, table_id := "", user_id := "",
    phase := OrderPhase.WAITING, message := "注文を受け付けました", progress := 0,
    error_message := none, metadata := Json.obj [] }

def c9St : MgrState := { orders := [("r1", c9State)], published := [] }

/-- Claim C9 counterexample: `mark_error("r1", "boom")` on a known order does
NOT make the status query return `"boom"` in its message field — the query
still returns the previous message, because `mark_error` writes the text into
the separate `error_message` field while `get_order_status` reads `message`. -/
theorem mark_error_counterexample :
    statusMessage (mark_error c9St "r1" "boom") "r1" =
      some "注文を受け付けました" ∧
    some "boom" ≠ (some "注文を受け付けました" : Option String) :=
  ⟨rfl, by decide⟩

/-- Claim C9 amended: for every order id known to the local Registry,
`mark_error(id, message)` sets the phase to ERROR and stores the raw exception
text in the state's separate `error_message` field (and publishes it in the
`ErrorEvent`); the status query's `message` field is untouched — it still
returns the message from before the error, not the error text. -/
theorem mark_error_amended (st : MgrState) (rid : String) (msg : String) :
    (∀ s, lookupOrder st.orders rid = some s →
      lookupOrder (mark_error st rid msg).orders rid =
        some { s with phase := OrderPhase.ERROR, error_message := some msg } ∧
      (0 ≤ s.progress → s.progress ≤ 1 →
        statusMessage (mark_error st rid msg) rid = some s.message)) ∧
    (mark_error st rid msg).published = st.published ++
      [GatewayEvent.error (some rid) msg] := by
  refine ⟨?_, rfl⟩
  intro s hs
  have hl : lookupOrder (mark_error st rid msg).orders rid =
      some { s with phase := OrderPhase.ERROR, error_message := some msg } := by
    simp [mark_error, lookupOrder_updateOrder, hs]
  refine ⟨hl, ?_⟩
  intro h0 h1
  simp [statusMessage, get_order_status, hl, if_pos (And.intro h0 h1)]

/-- Claim C9 witness: the amended statement at the concrete registry of the
counterexample. -/
theorem mark_error_amended_witness :
    lookupOrder (mark_error c9St "r1" "boom").orders "r1" =
      some { c9State with phase := OrderPhase.ERROR,
                          error_message := some "boom" } ∧
    statusMessage (mark_error c9St "r1" "boom") "r1" = some c9State.message ∧
    (mark_error c9St "r1" "boom").published = c9St.published ++
      [GatewayEvent.error (some "r1") "boom"] :=
  ⟨((mark_error_amended c9St "r1" "boom").1 c9State rfl).1,
   ((mark_error_amended c9St "r1" "boom").1 c9State rfl).2
     (by norm_num [c9State]) (by norm_num [c9State]),
   (mark_error_amended c9St "r1" "boom").2⟩

/-- A terminal phase per the spec: DONE, CANCELED or ERROR. -/
def terminalPhase (p : OrderPhase) : Prop :=
  p = OrderPhase.DONE ∨ p = OrderPhase.CANCELED ∨ p = OrderPhase.ERROR

/-- Every status query for `rid` that returns an `OrderStatus` reports
`done = true`. -/
def doneStaysTrue (st : MgrState) (rid : String) : Prop :=
  ∀ o, get_order_status st rid = Except.ok o → o.done = true

/-- If every state stored under `rid` has a terminal phase, the status query
for `rid` reports `done = true` whenever it returns. -/
theorem done_of_terminal (st : MgrState) (rid : String)
    (h : ∀ s, lookupOrder st.orders rid = some s → terminalPhase s.phase) :
    doneStaysTrue st rid := by
  intro o ho
  cases hl : lookupOrder st.orders rid with
  | none => simp [get_order_status, hl] at ho
  | some s =>
    by_cases hp : 0 ≤ s.progress ∧ s.progress ≤ 1
    · have hok : get_order_status st rid = Except.ok
          { request_id := s.request_id, stage := s.phase.name,
            progress := s.progress, message := s.message,
            done := s.phase == OrderPhase.DONE || s.phase == OrderPhase.ERROR ||
              s.phase == OrderPhase.CANCELED } := by
        simp [get_order_status, hl, if_pos hp]
      rw [hok] at ho
      injection ho with h2
      subst h2
      rcases h s hl with h1 | h1 | h1 <;> simp [h1]
    · have hbad : get_order_status st rid = Except.error
          { status := 500, detail := "response validation error" } := by
        simp [get_order_status, hl, if_neg hp]
      rw [hbad] at ho
      exact absurd ho (by simp)

/-- Registry updates through a function that always produces a terminal phase
preserve terminality at `rid`. -/
theorem terminal_after_update (st : MgrState) (rid : String) (s : OrderState)
    (hs : lookupOrder st.orders rid = some s) (ht : terminalPhase s.phase)
    (r2 : String) (f : OrderState → OrderState)
    (hf : ∀ x, terminalPhase (f x).phase) :
    ∀ s2, lookupOrder (updateOrder st.orders r2 f) rid = some s2 →
      terminalPhase s2.phase := by
  intro s2 h2
  rw [lookupOrder_updateOrder] at h2
  by_cases hr : rid = r2
  · rw [if_pos hr] at h2
    cases hx : lookupOrder st.orders r2 with
    | none => rw [hx] at h2; exact absurd h2 (by simp)
    | some x =>
      rw [hx] at h2
      have h3 : f x = s2 := by simpa using h2
      rw [← h3]
      exact hf x
  · rw [if_neg hr] at h2
    rw [hs] at h2
    cases h2
    exact ht

def c1State : OrderState :=
  { request_id := "r1", flavor := Flavor.chocolate, table_id := "", user_id := "",
    phase := OrderPhase.DONE, message := "ドーナッツを箱に詰め終わりました",
    progress := 1, error_message := none, metadata := Json.obj [] }

def c1St : MgrState := { orders := [("r1", c1State)], published := [] }

/-- Claim C1 counterexample: an order in the terminal phase DONE reports
`done = true`, but a later `set_phase` back to WAITING (exactly what the event
sync performs for a relayed `StatusUpdateEvent` with a non-terminal stage)
makes the very next status query report `done = false` — `set_phase` performs
no transition validation, so terminal phases are not protected. -/
theorem terminal_done_counterexample :
    statusDone c1St "r1" = some true ∧
    statusDone (set_phase c1St "r1" OrderPhase.WAITING "再開" 0) "r1" =
      some false ∧
    statusDone (sync_worker_events c1St
      (GatewayEvent.statusUpdate "r1" "WAITING" 0 "再開")) "r1" = some false :=
  ⟨rfl, rfl, rfl⟩

/-- Claim C1 amended: once an order's phase is DONE, CANCELED or ERROR, every
status query that returns an `OrderStatus` reports `done = true`, and the
flag never reverts under `mark_completed`, `mark_canceled`, `mark_error`,
under syncing a relayed `Completed` or `Error` event, or under `set_phase`
(direct or via a synced `StatusUpdate` event) whose target phase is itself
terminal; however `set_phase` performs no transition validation, so a
`set_phase` (or synced `StatusUpdate`) with a non-terminal stage does revert
`done` to false (see the counterexample). -/
theorem terminal_done_amended (st : MgrState) (rid : String) (s : OrderState)
    (hs : lookupOrder st.orders rid = some s) (ht : terminalPhase s.phase) :
    doneStaysTrue st rid ∧
    (∀ r2, doneStaysTrue (mark_completed st r2) rid) ∧
    (∀ r2, doneStaysTrue (mark_canceled st r2) rid) ∧
    (∀ r2 m, doneStaysTrue (mark_error st r2 m) rid) ∧
    (∀ r2 ph m p, terminalPhase ph →
      doneStaysTrue (set_phase st r2 ph m p) rid) ∧
    (∀ r2 res,
      doneStaysTrue (sync_worker_events st (GatewayEvent.completed r2 res)) rid) ∧
    (∀ or2 m,
      doneStaysTrue (sync_worker_events st (GatewayEvent.error or2 m)) rid) ∧
    (∀ r2 stage p m, terminalPhase (phase_map stage) →
      doneStaysTrue (sync_worker_events st
        (GatewayEvent.statusUpdate r2 stage p m)) rid) := by
  refine ⟨?_, ?_, ?_, ?_, ?_, ?_, ?_, ?_⟩
  · exact done_of_terminal st rid (fun s2 h2 => by
      rw [hs] at h2; cases h2; exact ht)
  · intro r2
    exact done_of_terminal _ rid (by
      simpa [mark_completed] using
        terminal_after_update st rid s hs ht r2 _ (fun x => Or.inl rfl))
  · intro r2
    exact done_of_terminal _ rid (by
      simpa [mark_canceled] using
        terminal_after_update st rid s hs ht r2 _ (fun x => Or.inr (Or.inl rfl)))
  · intro r2 m
    exact done_of_terminal _ rid (by
      simpa [mark_error] using
        terminal_after_update st rid s hs ht r2 _ (fun x => Or.inr (Or.inr rfl)))
  · intro r2 ph m p hph
    exact done_of_terminal _ rid (by
      simpa [set_phase] using
        terminal_after_update st rid s hs ht r2 _ (fun x => hph))
  · intro r2 res
    exact done_of_terminal _ rid (by
      simpa [sync_worker_events, mark_completed] using
        terminal_after_update st rid s hs ht r2 _ (fun x => Or.inl rfl))
  · intro or2 m
    cases or2 with
    | none =>
      exact done_of_terminal _ rid (fun s2 h2 => by
        simp only [sync_worker_events] at h2
        rw [hs] at h2; cases h2; exact ht)
    | some r2 =>
      exact done_of_terminal _ rid (by
        simpa [sync_worker_events, mark_error] using
          terminal_after_update st rid s hs ht r2 _ (fun x => Or.inr (Or.inr rfl)))
  · intro r2 stage p m hph
    exact done_of_terminal _ rid (by
      simpa [sync_worker_events, set_phase] using
        terminal_after_update st rid s hs ht r2 _ (fun x => hph))

/-- Claim C1 witness: the amended statement at a concrete DONE order —
`done` is true and stays true across `mark_canceled` and a synced `Error`
event. -/
theorem terminal_done_amended_witness :
    doneStaysTrue c1St "r1" ∧
    doneStaysTrue (mark_canceled c1St "r1") "r1" ∧
    doneStaysTrue (sync_worker_events c1St
      (GatewayEvent.error (some "r1") "late error")) "r1" :=
  ⟨(terminal_done_amended c1St "r1" c1State rfl (Or.inl rfl)).1,
   (terminal_done_amended c1St "r1" c1State rfl (Or.inl rfl)).2.2.1 "r1",
   (terminal_done_amended c1St "r1" c1State rfl (Or.inl rfl)).2.2.2.2.2.2.1
     (some "r1") "late error"⟩

/-- Under the INTENDED union validation, relaying any well-formed
`GatewayEvent` — `model_dump` on the worker side, parse plus validate on the
gateway side — yields a structurally equal event.  This is what the claim
(and spec §8) assert of the relay; the program itself never reaches it, see
`relay_validate_attribute_error`. -/
theorem model_validate_intended_roundtrip (e : GatewayEvent)
    (h : eventWellFormed e) : model_validate (model_dump e) = some e := by
  cases e with
  | statusUpdate rid stage p m =>
    show (if 0 ≤ p ∧ p ≤ 1 then some (GatewayEvent.statusUpdate rid stage p m)
          else none) = some (GatewayEvent.statusUpdate rid stage p m)
    exact if_pos h
  | completed rid res => rfl
  | error orid m => cases orid <;> rfl

/-- A concrete relayed line: the phase-1 `StatusUpdateEvent` the worker
serializes for a chocolate order. -/
def c3Event : GatewayEvent :=
  GatewayEvent.statusUpdate "r1" "PUTTING_DONUT" (1/2)
    "ドーナツの箱詰めを開始しました (chocolate)"

/-- Claim C3 (code bug): the claim describes the intended round trip, but the
receive side never performs it.  The call `GatewayEvent.model_validate` at
events.py line 109 raises `AttributeError` for every received line (the
PEP-604 union `GatewayEvent` has no such attribute), the inner
`except Exception` catches it, and the line is dropped with the queue
unchanged — decoding never yields any event, let alone a structurally equal
one.  The intended validation (what the slip stands in for) does return the
serialized event unchanged, shown here at the concrete line `c3Event`. -/
theorem relay_validate_attribute_error :
    (∀ j, gatewayEvent_model_validate_call j = Except.error
      "AttributeError: types.UnionType object has no attribute model_validate") ∧
    (∀ queue j, handle_client_line_call queue (some j) = Except.ok queue) ∧
    handle_client_line_call [] (some (model_dump c3Event)) = Except.ok [] ∧
    model_validate (model_dump c3Event) = some c3Event := by
  refine ⟨fun j => rfl, fun queue j => rfl, rfl, ?_⟩
  exact model_validate_intended_roundtrip c3Event (by constructor <;> norm_num)

/-- Claim C7: no failure of the cross-process relay escapes the relay
boundary.  `publish_event` returns normally with the event enqueued whatever
the side-channel relay does (its failures are swallowed), a non-JSON-parseable
line received by `handle_client` is dropped with the event queue unchanged,
and no line — whatever its parse or validation outcome — makes the receive
loop raise. -/
theorem relay_failures_contained :
    (∀ relayOutcome queue e,
      publish_event relayOutcome queue e = Except.ok (queue ++ [e])) ∧
    (∀ queue, handle_client_line queue none = Except.ok queue) ∧
    (∀ queue parsed, ∃ queue2,
      handle_client_line queue parsed = Except.ok queue2) := by
  refine ⟨?_, ?_, ?_⟩
  · intro relayOutcome queue e
    cases relayOutcome <;> rfl
  · intro queue
    rfl
  · intro queue parsed
    cases parsed with
    | none => exact ⟨queue, rfl⟩
    | some j =>
      cases h : model_validate j with
      | none =>
        exact ⟨queue, by simp [handle_client_line, parse_and_validate, h]⟩
      | some e =>
        exact ⟨queue ++ [e], by simp [handle_client_line, parse_and_validate, h]⟩

/-- Claim C8: for every execution of `_execute_order`, the current-order
pointer (`_current_request_id` and `_current_flavor`) is `None` after the
`finally` clause on every exit path — success, early return at a failed
confirmation gate, or exception — and any exception raised inside the
two-phase sequence is caught at the coordinator boundary and converted into
`mark_error(request_id, str(e))` on the worker's state manager. -/
theorem execute_order_cleanup (env : ExecEnv) (w : WorkerState)
    (request_id flavor : String) :
    (execute_order env w request_id flavor).current_request_id = none ∧
    (execute_order env w request_id flavor).current_flavor = none ∧
    (∀ e, (execute_order_body env
        { w with current_request_id := some request_id,
                 current_flavor := some flavor } request_id flavor).2 = some e →
      (execute_order env w request_id flavor).mgr =
        mark_error (execute_order_body env
          { w with current_request_id := some request_id,
                   current_flavor := some flavor } request_id flavor).1.mgr
          request_id e) := by
  refine ⟨rfl, rfl, ?_⟩
  intro e he
  simp only [execute_order, he, onMgr]

def c8Env : ExecEnv :=
  { episode1 := Except.error "robot fault", rDetected1 := false, rWait1 := false,
    shutdown1 := false, episode2 := Except.ok (), rDetected2 := false,
    rWait2 := false, shutdown2 := false }

def c8W : WorkerState :=
  { mgr := { orders := [], published := [] }, shutdown_event := false,
    current_request_id := none, current_flavor := none }

/-- Claim C8 witness: a phase-1 episode exception on a concrete worker state
is converted to `mark_error` and the current-order pointer is cleared. -/
theorem execute_order_cleanup_witness :
    (execute_order c8Env c8W "r1" "chocolate").current_request_id = none ∧
    (execute_order c8Env c8W "r1" "chocolate").current_flavor = none ∧
    (execute_order c8Env c8W "r1" "chocolate").mgr =
      mark_error (execute_order_body c8Env
        { c8W with current_request_id := some "r1",
                   current_flavor := some "chocolate" } "r1" "chocolate").1.mgr
        "r1" "robot fault" :=
  ⟨(execute_order_cleanup c8Env c8W "r1" "chocolate").1,
   (execute_order_cleanup c8Env c8W "r1" "chocolate").2.1,
   (execute_order_cleanup c8Env c8W "r1" "chocolate").2.2 "robot fault" rfl⟩

/-- The `CancelOrder` command built by `OrderService.cancel_order`
(services/orders.py lines 70-73). -/
def cancelCmd (rid : String) : WorkerCommand :=
  { type := WorkerCommandType.CANCEL_ORDER, request_id := some rid }

/-- Claim C10: for every `CancelOrder` command with a non-None request id, the
worker's command handler sets the shutdown flag and applies `mark_canceled`
exactly when the id equals the currently-active order id, leaves its state
untouched otherwise, and returns `status = "ok"` in both cases — so the
gateway's `cancel_order` reports success for any id it knows locally, whether
or not a cancellation was performed. -/
theorem cancel_command_spec (w : WorkerState) (rid : String) :
    (handle_command w (cancelCmd rid)).2.status = "ok" ∧
    (w.current_request_id = some rid →
      (handle_command w (cancelCmd rid)).1 =
        { w with shutdown_event := true, mgr := mark_canceled w.mgr rid }) ∧
    (w.current_request_id ≠ some rid →
      (handle_command w (cancelCmd rid)).1 = w) ∧
    (∀ gw : MgrState, ∀ s, lookupOrder gw.orders rid = some s →
      (cancel_order gw w true rid).1 = true) := by
  by_cases hcur : w.current_request_id = some rid
  · refine ⟨by simp [handle_command, cancelCmd, hcur],
      fun _ => by simp [handle_command, cancelCmd, hcur],
      fun hne => absurd hcur hne, ?_⟩
    intro gw s hgw
    simp [cancel_order, hgw, handle_command, hcur]
  · refine ⟨by simp [handle_command, cancelCmd, hcur],
      fun hc => absurd hc hcur,
      fun _ => by simp [handle_command, cancelCmd, hcur], ?_⟩
    intro gw s hgw
    simp [cancel_order, hgw, handle_command, hcur]

def c10WActive : WorkerState :=
  { mgr := { orders := [], published := [] }, shutdown_event := false,
    current_request_id := some "r1", current_flavor := some "chocolate" }

def c10WOther : WorkerState :=
  { mgr := { orders := [], published := [] }, shutdown_event := false,
    current_request_id := some "other", current_flavor := some "chocolate" }

def c10Gw : MgrState :=
  { orders := [("r1",
      { request_id := "r1", flavor := Flavor.chocolate, table_id := "",
        user_id := "", phase := OrderPhase.PUTTING_DONUT,
        message := "箱詰め中", progress := 1/2,
        error_message := none, metadata := Json.obj [] })]
    published := [] }

/-- Claim C10 witness: cancelling `"r1"` against a worker whose active order
is `"r1"` (cancellation performed) and against a worker busy with another
order (handler state untouched), with the gateway reporting success in both
cases. -/
theorem cancel_command_spec_witness :
    (handle_command c10WActive (cancelCmd "r1")).2.status = "ok" ∧
    (handle_command c10WActive (cancelCmd "r1")).1 =
      { c10WActive with shutdown_event := true,
                        mgr := mark_canceled c10WActive.mgr "r1" } ∧
    (handle_command c10WOther (cancelCmd "r1")).1 = c10WOther ∧
    (cancel_order c10Gw c10WActive true "r1").1 = true ∧
    (cancel_order c10Gw c10WOther true "r1").1 = true :=
  ⟨(cancel_command_spec c10WActive "r1").1,
   (cancel_command_spec c10WActive "r1").2.1 rfl,
   (cancel_command_spec c10WOther "r1").2.2.1 (by simp [c10WOther]),
   (cancel_command_spec c10WActive "r1").2.2.2 c10Gw _ rfl,
   (cancel_command_spec c10WOther "r1").2.2.2 c10Gw _ rfl⟩
